import Mathlib

/-!
Shallow embedding of the git-sync agent (config validation, git command
adapter, scheduler tick and poll loop) and verification of its
specification claims.

Strings are modelled as lists of characters (`PyStr`), and the Python
string operations used by the source (`in`, `split`, `replace`, `strip`,
`lower`, `startswith`, `endswith`, slicing) are re-implemented by
structural recursion so that every definition evaluates inside the kernel.
-/

/-- Model of a Python string: a list of characters. -/
abbrev PyStr := List Char

/-- Convert a Lean string literal into the model type. -/
def pyStr (s : String) : PyStr := s.data

/-- Python truthiness of an optional string: `None` and `""` are falsy. -/
def isFalsy : Option PyStr → Bool
  | none => true
  | some s => s.isEmpty

/-- Python `s.startswith(p)`. -/
def pyStartsWith : PyStr → PyStr → Bool
  | _, [] => true
  | [], _ :: _ => false
  | c :: s, p :: ps => c == p && pyStartsWith s ps

/-- Python `s.endswith(p)`. -/
def pyEndsWith (s p : PyStr) : Bool :=
  pyStartsWith s.reverse p.reverse

/-- Leftmost occurrence of `sep` in `s`: `some (before, after)` when `sep`
occurs, splitting around that first occurrence; `none` otherwise. -/
def findSplit (sep : PyStr) : PyStr → Option (PyStr × PyStr)
  | [] => none
  | c :: rest =>
    if pyStartsWith (c :: rest) sep then
      some ([], List.drop sep.length (c :: rest))
    else
      (findSplit sep rest).map (fun p => (c :: p.1, p.2))

/-- Python `pat in s` (for the non-empty patterns the source uses). -/
def pyContains (s pat : PyStr) : Bool :=
  (findSplit pat s).isSome

/-- Python `s.split(sep, 1)[1]`: everything after the first occurrence of
`sep` (identity when `sep` does not occur; the source always guards the
call with a containment test). -/
def pyAfterFirst (s sep : PyStr) : PyStr :=
  match findSplit sep s with
  | some p => p.2
  | none => s

/-- Fuel-indexed worker for `pySplit`. -/
def pySplitAux (sep : PyStr) : Nat → PyStr → List PyStr
  | 0, s => [s]
  | fuel + 1, s =>
    match findSplit sep s with
    | none => [s]
    | some p => p.1 :: pySplitAux sep fuel p.2

/-- Python `s.split(sep)` for a non-empty separator. -/
def pySplit (s sep : PyStr) : List PyStr :=
  pySplitAux sep (s.length + 1) s

/-- Fuel-indexed worker for `pyReplace`. -/
def pyReplaceAux (pat rep : PyStr) : Nat → PyStr → PyStr
  | 0, s => s
  | fuel + 1, s =>
    match findSplit pat s with
    | none => s
    | some p => p.1 ++ rep ++ pyReplaceAux pat rep fuel p.2

/-- Python `s.replace(pat, rep)`: replaces every non-overlapping
occurrence, scanning left to right. -/
def pyReplace (s pat rep : PyStr) : PyStr :=
  pyReplaceAux pat rep (s.length + 1) s

/-- Python `s.strip()`: drop whitespace from both ends. -/
def pyStrip (s : PyStr) : PyStr :=
  ((s.dropWhile Char.isWhitespace).reverse.dropWhile Char.isWhitespace).reverse

/-- Python `s.lower()` (ASCII, as the source only compares ASCII answers). -/
def pyLower (s : PyStr) : PyStr :=
  s.map Char.toLower

/-- Outcome of one git subprocess invocation: exit status and stdout, as
returned by `GitManager._run_git_command`. -/
structure CmdResult where
  ok : Bool
  out : PyStr

/-- Results of the read-only git commands a tick consults, indexed by what
the repository and its remote currently look like.  `revParseOriginBranch`
is a function of the branch name, mirroring `rev-parse origin/<branch>`. -/
structure GitWorld where
  revParseHead : CmdResult
  revParseOriginBranch : PyStr → CmdResult
  statusPorcelain : CmdResult
  remoteGetUrl : CmdResult

/-- Embedding of `GitManager.get_local_head`: the stripped stdout of
`rev-parse HEAD` on success, `none` on failure. -/
def get_local_head (w : GitWorld) : Option PyStr :=
  if w.revParseHead.ok then some (pyStrip w.revParseHead.out) else none

/-- Embedding of `GitManager.get_remote_head`: the stripped stdout of
`rev-parse origin/<branch>` on success, `none` on failure. -/
def get_remote_head (w : GitWorld) (branch : PyStr) : Option PyStr :=
  if (w.revParseOriginBranch branch).ok then
    some (pyStrip (w.revParseOriginBranch branch).out)
  else none

/-- Embedding of `GitManager.has_changes`: false when either head is
unknown, otherwise true exactly when the two heads differ. -/
def has_changes (w : GitWorld) (branch : PyStr) : Bool :=
  match get_local_head w, get_remote_head w branch with
  | some l, some r => decide (l ≠ r)
  | _, _ => false

/-- Embedding of `GitManager.has_local_changes`: the stripped porcelain
status is non-empty, and false when the status command itself fails. -/
def has_local_changes (w : GitWorld) : Bool :=
  if w.statusPorcelain.ok then !(pyStrip w.statusPorcelain.out).isEmpty
  else false

/-- Embedding of `GitManager._get_repo_path`: extract `user/repo` from the
`remote get-url origin` output, taking the part after the last
`github.com/`, dropping everything up to a `@` and a trailing `.git`;
empty string when the command fails or the URL lacks `github.com`. -/
def get_repo_path (w : GitWorld) : PyStr :=
  if w.remoteGetUrl.ok then
    let url := pyStrip w.remoteGetUrl.out
    if pyContains url (pyStr "github.com") then
      let path := (pySplit url (pyStr "github.com/")).getLastD []
      let path := if pyContains path (pyStr "@") then pyAfterFirst path (pyStr "@") else path
      let path := if pyEndsWith path (pyStr ".git") then path.take (path.length - 4) else path
      path
    else []
  else []

/-- Embedding of the URL construction in `GitManager.clone`: with a truthy
token, a URL containing `github.com` and an `https://` scheme, every
occurrence of `https://` is replaced by `https://TOKEN@`; otherwise the
URL is passed through unchanged. -/
def clone_url (url : PyStr) (token : Option PyStr) : PyStr :=
  if !isFalsy token && pyContains url (pyStr "github.com") then
    if pyStartsWith url (pyStr "https://") then
      pyReplace url (pyStr "https://") (pyStr "https://" ++ token.getD [] ++ pyStr "@")
    else url
  else url

/-- Remote URL written by `git config remote.origin.url` in `fetch`/`push`
when a token is present. -/
def token_remote_url (w : GitWorld) (t : PyStr) : PyStr :=
  pyStr "https://" ++ t ++ pyStr "@github.com/" ++ get_repo_path w

/-- Embedding of the remote-URL reconfiguration in `GitManager.fetch`:
`some` of the configured URL when the token is truthy, `none` when no
reconfiguration happens. -/
def fetch_config_url (w : GitWorld) (token : Option PyStr) : Option PyStr :=
  if isFalsy token then none else some (token_remote_url w (token.getD []))

/-- Embedding of the remote-URL reconfiguration in `GitManager.push`,
identical to the one in `fetch`. -/
def push_config_url (w : GitWorld) (token : Option PyStr) : Option PyStr :=
  if isFalsy token then none else some (token_remote_url w (token.getD []))

/-- Value of the `check_interval` key as parsed from `config.json`.  JSON
numeric literals with a fraction or exponent become Python floats; they
are modelled exactly as their decimal reading `mantissa * 10 ^ exponent`
(binary-float rounding is ignored: it cannot move a JSON literal across
an integer boundary at the magnitudes involved, so `int()` truncation is
unaffected).  Arrays and objects are opaque: their contents never reach
`int()`, which raises `TypeError` on them regardless. -/
inductive JsonVal where
  | jnull
  | jbool : Bool → JsonVal
  | jint : Int → JsonVal
  | jfloat : Int → Int → JsonVal
  | jstr : PyStr → JsonVal
  | jarray
  | jobject
deriving Repr, DecidableEq

/-- Result of Python `int(value)`: an integer, a `ValueError` (caught by
`Config.is_valid`), or a `TypeError` (not caught anywhere). -/
inductive PyIntResult where
  | ok : Int → PyIntResult
  | valueError
  | typeError
deriving Repr, DecidableEq

/-- Helper for decimal digit strings: `some` of the value of a non-empty
all-digit list, `none` otherwise. -/
def digitsToNatAux : Nat → List Char → Option Nat
  | acc, [] => some acc
  | acc, c :: cs =>
    if c.isDigit then digitsToNatAux (acc * 10 + (c.toNat - '0'.toNat)) cs
    else none

/-- Value of a non-empty decimal digit list, `none` when empty or when any
character is not a digit. -/
def digitsToNat : List Char → Option Nat
  | [] => none
  | l => digitsToNatAux 0 l

/-- Python `int(s)` for a string: strip whitespace, allow one leading
sign, then require decimal digits; anything else raises `ValueError`.
(Digit-group underscores are not modelled; no claim involves them.) -/
def pyIntOfString (s : PyStr) : PyIntResult :=
  match pyStrip s with
  | '+' :: rest =>
    match digitsToNat rest with
    | some n => PyIntResult.ok n
    | none => PyIntResult.valueError
  | '-' :: rest =>
    match digitsToNat rest with
    | some n => PyIntResult.ok (-(n : Int))
    | none => PyIntResult.valueError
  | t =>
    match digitsToNat t with
    | some n => PyIntResult.ok n
    | none => PyIntResult.valueError

/-- Integer division of `m` by a positive `d`, truncating toward zero, as
Python `int()` does on floats. -/
def intTruncDiv (m : Int) (d : Nat) : Int :=
  if m < 0 then -((m.natAbs / d : Nat) : Int) else ((m.natAbs / d : Nat) : Int)

/-- Python `int(f)` for the float `m * 10 ^ e`: exact product for a
non-negative exponent, truncation toward zero otherwise. -/
def pyIntOfFloat (m e : Int) : Int :=
  if 0 ≤ e then m * ((10 : Int) ^ e.toNat)
  else intTruncDiv m ((10 : Nat) ^ (-e).toNat)

/-- Python `int(value)` over the JSON value domain: integers pass through,
booleans coerce (`True` → 1, `False` → 0), floats truncate toward zero,
strings are parsed, and `null`/arrays/objects raise `TypeError`. -/
def pyIntOfJson : JsonVal → PyIntResult
  | JsonVal.jnull => PyIntResult.typeError
  | JsonVal.jbool b => PyIntResult.ok (if b then 1 else 0)
  | JsonVal.jint n => PyIntResult.ok n
  | JsonVal.jfloat m e => PyIntResult.ok (pyIntOfFloat m e)
  | JsonVal.jstr s => pyIntOfString s
  | JsonVal.jarray => PyIntResult.typeError
  | JsonVal.jobject => PyIntResult.typeError

/-- Configuration record as read from `config.json`.  `none` means the key
is missing.  The three path/url/branch values are the strings the setup
wizard writes; `check_interval` carries a full JSON value because
`Config.is_valid` runs it through `int()`. -/
structure ConfigData where
  project_path : Option PyStr
  repo_url : Option PyStr
  branch : Option PyStr
  check_interval : Option JsonVal

/-- Embedding of `Config.is_valid`: all four required keys present, the
three string values non-empty, then `int(check_interval)` positive.
`some b` is a normal boolean return; `none` is the uncaught `TypeError`
that `int()` raises on `null`/array/object values (only `ValueError` is
caught and turned into a clean `False`). -/
def is_valid (c : ConfigData) : Option Bool :=
  match c.project_path, c.repo_url, c.branch, c.check_interval with
  | some pp, some ru, some br, some ci =>
    if pp.isEmpty then some false
    else if ru.isEmpty then some false
    else if br.isEmpty then some false
    else
      match pyIntOfJson ci with
      | PyIntResult.ok n => some (decide (0 < n))
      | PyIntResult.valueError => some false
      | PyIntResult.typeError => none
  | _, _, _, _ => some false

/-- Outcome of `Scheduler.start`: which guard rejected the run, an
uncaught exception escaping `start`, or that the poll loop was entered. -/
inductive StartResult where
  | loadFailed
  | invalidConfig
  | notARepo
  | crashed
  | enteredLoop
deriving Repr, DecidableEq

/-- Embedding of `Scheduler.start`: load the configuration, validate it
(an uncaught `TypeError` inside validation escapes `start` as `crashed`),
check the project path is a git repository, and only then enter
`_main_loop`. -/
def scheduler_start (loadOk : Bool) (c : ConfigData) (isRepo : Bool) : StartResult :=
  if !loadOk then StartResult.loadFailed
  else
    match is_valid c with
    | none => StartResult.crashed
    | some false => StartResult.invalidConfig
    | some true =>
      if !isRepo then StartResult.notARepo
      else StartResult.enteredLoop

/-- Observable operations performed during one scheduler tick
(`Scheduler._check_for_changes` and its helpers). -/
inductive SyncAction where
  | fetch
  | diffSummary
  | promptMerge
  | merge
  | reportDetectionOnly
  | statusDisplay
  | promptPush
  | stageAll
  | commit
  | push
  | reportTokenMissingCheck
  | reportTokenMissingPush
deriving Repr, DecidableEq

/-- Automation flags of the configuration consulted by a tick. -/
structure SchedConfig where
  autoPush : Bool
  confirmPush : Bool
  isPrivate : Bool

/-- Environment of one tick: the credential-store answer, the git world,
the monitored branch, the outcomes of the mutating git commands, and the
user's raw answers to the two confirmation prompts. -/
structure TickEnv where
  token : Option PyStr
  fetchOk : Bool
  world : GitWorld
  branch : PyStr
  addOk : Bool
  commitOk : Bool
  mergeAnswer : PyStr
  pushAnswer : PyStr

/-- Embedding of the source's affirmative-answer test:
`response.strip().lower() in ['o', 'oui', 'yes', 'y']`. -/
def yesAnswer (s : PyStr) : Bool :=
  [pyStr "o", pyStr "oui", pyStr "yes", pyStr "y"].contains (pyLower (pyStrip s))

/-- Embedding of `Scheduler._push_local_changes`: stage everything, commit
with a timestamped message, then look the token up again for a private
repository and either report it missing or push. Each step stops the
sequence on failure. -/
def push_local_changes (cfg : SchedConfig) (env : TickEnv) : List SyncAction :=
  if !env.addOk then [SyncAction.stageAll]
  else if !env.commitOk then [SyncAction.stageAll, SyncAction.commit]
  else
    [SyncAction.stageAll, SyncAction.commit] ++
      (if cfg.isPrivate && isFalsy env.token then [SyncAction.reportTokenMissingPush]
       else [SyncAction.push])

/-- Embedding of `Scheduler._handle_local_changes`: with auto-push off,
only a detection report; otherwise show the status, prompt when
`confirm_push` is on, and run the publish sequence unless the user
declined. -/
def handle_local_changes (cfg : SchedConfig) (env : TickEnv) : List SyncAction :=
  if !cfg.autoPush then [SyncAction.reportDetectionOnly]
  else
    [SyncAction.statusDisplay] ++
      (if cfg.confirmPush then [SyncAction.promptPush] else []) ++
      (if !cfg.confirmPush || yesAnswer env.pushAnswer then push_local_changes cfg env
       else [])

/-- Embedding of `Scheduler._handle_remote_changes`: show the diff
summary, always ask for confirmation, and merge only on an affirmative
answer. -/
def handle_remote_changes (env : TickEnv) : List SyncAction :=
  [SyncAction.diffSummary, SyncAction.promptMerge] ++
    (if yesAnswer env.mergeAnswer then [SyncAction.merge] else [])

/-- Embedding of `Scheduler._check_for_changes`, one full tick: for a
private repository with no retrievable token, report and stop; otherwise
fetch, and on success handle remote drift and then local dirty changes. -/
def check_for_changes (cfg : SchedConfig) (env : TickEnv) : List SyncAction :=
  if cfg.isPrivate && isFalsy env.token then [SyncAction.reportTokenMissingCheck]
  else
    [SyncAction.fetch] ++
      (if !env.fetchOk then []
       else
        (if has_changes env.world env.branch then handle_remote_changes env else []) ++
          (if has_local_changes env.world then handle_local_changes cfg env else []))

/-- State of `Scheduler._main_loop`: the timestamp of the last completed
check. -/
structure LoopState where
  lastCheckTime : Nat
deriving Repr, DecidableEq

/-- Initial loop state: `last_check_time = 0`. -/
def initLoopState : LoopState := ⟨0⟩

/-- One wake-up of `Scheduler._main_loop` at wall-clock time `now`:
returns whether a tick fires, and the updated state. -/
def loopStep (interval : Nat) (s : LoopState) (now : Nat) : Bool × LoopState :=
  if interval ≤ now - s.lastCheckTime then (true, ⟨now⟩) else (false, s)

/-- Git world with drifted heads: local and remote resolve to different
commits. -/
def wDrift : GitWorld :=
  { revParseHead := ⟨true, pyStr "aaa\n"⟩
    revParseOriginBranch := fun _ => ⟨true, pyStr "bbb\n"⟩
    statusPorcelain := ⟨true, pyStr ""⟩
    remoteGetUrl := ⟨true, pyStr "https://github.com/u/r.git\n"⟩ }

/-- Git world with equal heads but a dirty working tree; the remote URL
carries userinfo and a `.git` suffix. -/
def wDirty : GitWorld :=
  { revParseHead := ⟨true, pyStr "aaa"⟩
    revParseOriginBranch := fun _ => ⟨true, pyStr "aaa"⟩
    statusPorcelain := ⟨true, pyStr " M f.txt\n"⟩
    remoteGetUrl := ⟨true, pyStr "https://tok@github.com/u/r.git\n"⟩ }

/-- Git world where `remote get-url origin` fails. -/
def wNoUrl : GitWorld :=
  { revParseHead := ⟨true, pyStr "aaa"⟩
    revParseOriginBranch := fun _ => ⟨true, pyStr "aaa"⟩
    statusPorcelain := ⟨true, pyStr ""⟩
    remoteGetUrl := ⟨false, pyStr ""⟩ }

/-- Git world where `status --porcelain` fails while printing noise. -/
def wNoStatus : GitWorld :=
  { revParseHead := ⟨true, pyStr "aaa"⟩
    revParseOriginBranch := fun _ => ⟨true, pyStr "aaa"⟩
    statusPorcelain := ⟨false, pyStr "fatal noise"⟩
    remoteGetUrl := ⟨true, pyStr "https://github.com/u/r.git"⟩ }

/-- Configuration with auto-push and push confirmation on, public repo. -/
def cfgAC : SchedConfig := { autoPush := true, confirmPush := true, isPrivate := false }

/-- Configuration with auto-push on, no push confirmation, private repo. -/
def cfgPriv : SchedConfig := { autoPush := true, confirmPush := false, isPrivate := true }

/-- Tick environment where the user declines both prompts, over a dirty
working tree. -/
def envDecline : TickEnv :=
  { token := some (pyStr "T"), fetchOk := true, world := wDirty, branch := pyStr "main"
    addOk := true, commitOk := true, mergeAnswer := pyStr "n", pushAnswer := pyStr "n" }

/-- Tick environment over a dirty working tree where the credential store
yields no token. -/
def envNoTok : TickEnv :=
  { token := none, fetchOk := true, world := wDirty, branch := pyStr "main"
    addOk := true, commitOk := true, mergeAnswer := pyStr "n", pushAnswer := pyStr "o" }

/-- Tick environment with remote drift, declining the merge prompt. -/
def envDriftDecline : TickEnv :=
  { token := some (pyStr "T"), fetchOk := true, world := wDrift, branch := pyStr "main"
    addOk := true, commitOk := true, mergeAnswer := pyStr "non", pushAnswer := pyStr "n" }

/-- Configuration record with the `branch` key missing. -/
def cfgMissingBranch : ConfigData :=
  ⟨some (pyStr "/p"), some (pyStr "https://github.com/u/r.git"), none,
   some (JsonVal.jint 300)⟩

/-- Configuration record whose check interval is the JSON string "300". -/
def cfgStrInterval : ConfigData :=
  ⟨some (pyStr "/p"), some (pyStr "https://github.com/u/r.git"), some (pyStr "main"),
   some (JsonVal.jstr (pyStr "300"))⟩

/-- Configuration record whose check interval is the JSON float 2.5,
modelled as 25 * 10 ^ (-1). -/
def cfgFloatInterval : ConfigData :=
  ⟨some (pyStr "/p"), some (pyStr "https://github.com/u/r.git"), some (pyStr "main"),
   some (JsonVal.jfloat 25 (-1))⟩

/-- Configuration record whose check interval is the JSON boolean true. -/
def cfgBoolInterval : ConfigData :=
  ⟨some (pyStr "/p"), some (pyStr "https://github.com/u/r.git"), some (pyStr "main"),
   some (JsonVal.jbool true)⟩

/-- Configuration record whose check interval is JSON null. -/
def cfgNullInterval : ConfigData :=
  ⟨some (pyStr "/p"), some (pyStr "https://github.com/u/r.git"), some (pyStr "main"),
   some JsonVal.jnull⟩

/-- Helper: the publish sequence never performs a merge. -/
theorem merge_not_mem_push_local (cfg : SchedConfig) (env : TickEnv) :
    SyncAction.merge ∉ push_local_changes cfg env := by
  unfold push_local_changes
  cases env.addOk <;> cases env.commitOk <;>
    cases (cfg.isPrivate && isFalsy env.token) <;> simp

/-- Helper: local-changes handling never performs a merge. -/
theorem merge_not_mem_handle_local (cfg : SchedConfig) (env : TickEnv) :
    SyncAction.merge ∉ handle_local_changes cfg env := by
  have h1 := merge_not_mem_push_local cfg env
  unfold handle_local_changes
  cases cfg.autoPush <;> cases cfg.confirmPush <;>
    cases yesAnswer env.pushAnswer <;> simp <;> exact h1

/-- Helper: remote-changes handling only shows the diff, prompts, and
possibly merges. -/
theorem mem_handle_remote (env : TickEnv) (a : SyncAction)
    (h : a ∈ handle_remote_changes env) :
    a = SyncAction.diffSummary ∨ a = SyncAction.promptMerge ∨ a = SyncAction.merge := by
  unfold handle_remote_changes at h
  simp at h
  tauto

/-- C1: the drift flag of `has_changes` is true exactly when both the
local head and the remote head resolve and their commit ids differ;
failure of either resolution yields false. -/
theorem c1_has_changes_iff_heads_differ (w : GitWorld) (b : PyStr) :
    has_changes w b = true ↔
      ∃ l r, get_local_head w = some l ∧ get_remote_head w b = some r ∧ l ≠ r := by
  unfold has_changes
  cases hl : get_local_head w <;> cases hr : get_remote_head w b <;> simp

/-- C1 witness: the characterization evaluated on a world whose heads
resolve to different commits. -/
theorem c1_witness :
    has_changes wDrift (pyStr "main") = true ↔
      ∃ l r, get_local_head wDrift = some l ∧
        get_remote_head wDrift (pyStr "main") = some r ∧ l ≠ r :=
  c1_has_changes_iff_heads_differ wDrift (pyStr "main")

/-- C5 counterexample: records whose check interval is the JSON string
"300", the float 2.5 or the boolean true are not positive integers, yet
`int()` coerces them to 300, 2 and 1, so `Scheduler.start` enters the
poll loop; and a null interval crashes validation instead of returning
failure. -/
theorem c5_counterexample :
    scheduler_start true cfgStrInterval true = StartResult.enteredLoop ∧
    scheduler_start true cfgFloatInterval true = StartResult.enteredLoop ∧
    scheduler_start true cfgBoolInterval true = StartResult.enteredLoop ∧
    scheduler_start true cfgNullInterval true = StartResult.crashed := by
  refine ⟨?_, ?_, ?_, ?_⟩ <;> decide

/-- C5 (amended): a configuration record missing one of the four required
keys, or whose check-interval value makes `int()` raise `ValueError`, or
coerces under `int()` to a non-positive integer, makes `Scheduler.start`
return failure cleanly — neither entering the poll loop nor raising.
(Values coercing to a positive integer enter the loop, and
`null`/array/object values crash validation with an uncaught `TypeError`,
as the counterexample shows.) -/
theorem c5_coerced_interval_gates_start (loadOk : Bool) (c : ConfigData) (isRepo : Bool)
    (h : c.project_path = none ∨ c.repo_url = none ∨ c.branch = none ∨
         c.check_interval = none ∨
         (∃ ci, c.check_interval = some ci ∧ pyIntOfJson ci = PyIntResult.valueError) ∨
         (∃ ci n, c.check_interval = some ci ∧ pyIntOfJson ci = PyIntResult.ok n ∧ n ≤ 0)) :
    scheduler_start loadOk c isRepo ≠ StartResult.enteredLoop ∧
    scheduler_start loadOk c isRepo ≠ StartResult.crashed := by
  have hv : is_valid c = some false := by
    obtain ⟨pp, ru, br, ci⟩ := c
    rcases h with h | h | h | h | ⟨ci', h, hci⟩ | ⟨ci', n, h, hci, hn⟩
    · subst h
      rcases ru with _ | ru <;> rcases br with _ | br <;> rcases ci with _ | ci <;>
        simp [is_valid]
    · subst h
      rcases pp with _ | pp <;> rcases br with _ | br <;> rcases ci with _ | ci <;>
        simp [is_valid]
    · subst h
      rcases pp with _ | pp <;> rcases ru with _ | ru <;> rcases ci with _ | ci <;>
        simp [is_valid]
    · subst h
      rcases pp with _ | pp <;> rcases ru with _ | ru <;> rcases br with _ | br <;>
        simp [is_valid]
    · subst h
      rcases pp with _ | pp <;> rcases ru with _ | ru <;> rcases br with _ | br <;>
        simp [is_valid, hci]
    · subst h
      have hd : decide (0 < n) = false := by
        simp only [decide_eq_false_iff_not]
        omega
      rcases pp with _ | pp <;> rcases ru with _ | ru <;> rcases br with _ | br <;>
        simp [is_valid, hci, hd]
  unfold scheduler_start
  cases loadOk <;> simp [hv]

/-- C5 witness: a record with the `branch` key missing is rejected
cleanly even when loading succeeded and the path is a repository. -/
theorem c5_witness :
    scheduler_start true cfgMissingBranch true ≠ StartResult.enteredLoop ∧
    scheduler_start true cfgMissingBranch true ≠ StartResult.crashed :=
  c5_coerced_interval_gates_start true cfgMissingBranch true (Or.inr (Or.inr (Or.inl rfl)))

/-- C8: the loop state starts with last-check time 0, so the very first
wake-up already fires a tick for every interval not exceeding the
wall-clock time (always the case for epoch timestamps). -/
theorem c8_first_wakeup_ticks (interval now : Nat) (h : interval ≤ now) :
    initLoopState.lastCheckTime = 0 ∧
      loopStep interval initLoopState now = (true, ⟨now⟩) := by
  refine ⟨rfl, ?_⟩
  unfold loopStep initLoopState
  rw [if_pos (by omega : interval ≤ now - (0 : Nat))]

/-- C8 witness: with a five-minute interval and an epoch-scale clock, the
first wake-up fires. -/
theorem c8_witness :
    initLoopState.lastCheckTime = 0 ∧
      loopStep 300 initLoopState 1760227200 = (true, ⟨1760227200⟩) :=
  c8_first_wakeup_ticks 300 1760227200 (by omega)

/-- C9: when the porcelain status command fails, `has_local_changes`
reports a clean tree, mirroring the unknown-heads rule for drift. -/
theorem c9_status_failure_reports_clean (w : GitWorld)
    (h : w.statusPorcelain.ok = false) :
    has_local_changes w = false := by
  simp [has_local_changes, h]

/-- C9 witness: a world whose status command fails while printing noise is
still reported clean. -/
theorem c9_witness : has_local_changes wNoStatus = false :=
  c9_status_failure_reports_clean wNoStatus rfl

/-- C2 counterexample: auto-push and confirm-push on, dirty tree, user
declines — the tick stages nothing and commits nothing, refuting the claim
that staging and the commit happen regardless of the answer. -/
theorem c2_counterexample :
    SyncAction.stageAll ∉ handle_local_changes cfgAC envDecline ∧
    SyncAction.commit ∉ handle_local_changes cfgAC envDecline ∧
    handle_local_changes cfgAC envDecline =
      [SyncAction.statusDisplay, SyncAction.promptPush] := by
  refine ⟨?_, ?_, ?_⟩ <;> decide

/-- C2 (amended): with auto-push and confirm-push on, the confirmation
prompt gates the entire stage-commit-push sequence: declining skips all
three steps, approving runs the publish sequence after the prompt. -/
theorem c2_confirm_gates_whole_sequence (cfg : SchedConfig) (env : TickEnv)
    (hA : cfg.autoPush = true) (hC : cfg.confirmPush = true) :
    (yesAnswer env.pushAnswer = false →
      handle_local_changes cfg env = [SyncAction.statusDisplay, SyncAction.promptPush]) ∧
    (yesAnswer env.pushAnswer = true →
      handle_local_changes cfg env =
        [SyncAction.statusDisplay, SyncAction.promptPush] ++ push_local_changes cfg env) := by
  constructor <;> intro hY <;> simp [handle_local_changes, hA, hC, hY]

/-- C2 witness: the amended statement applied to the declining
environment. -/
theorem c2_witness :
    handle_local_changes cfgAC envDecline =
      [SyncAction.statusDisplay, SyncAction.promptPush] :=
  (c2_confirm_gates_whole_sequence cfgAC envDecline rfl rfl).1 (by decide)

/-- C3 counterexample: auto-push on, private repository, dirty tree, no
token retrievable — the tick is a single token-missing report, so no
commit is created, refuting the claim that staging and commit are
performed. -/
theorem c3_counterexample :
    check_for_changes cfgPriv envNoTok = [SyncAction.reportTokenMissingCheck] ∧
    SyncAction.stageAll ∉ check_for_changes cfgPriv envNoTok ∧
    SyncAction.commit ∉ check_for_changes cfgPriv envNoTok ∧
    SyncAction.reportTokenMissingPush ∉ check_for_changes cfgPriv envNoTok := by
  refine ⟨?_, ?_, ?_, ?_⟩ <;> decide

/-- C3 (amended): for a private repository whose credential store yields
no token, the tick aborts at its start with the token-missing report —
fetch, staging, commit and push are all skipped; the commit-but-unpushed
outcome is unreachable when the store consistently returns nothing. -/
theorem c3_token_missing_aborts_tick (cfg : SchedConfig) (env : TickEnv)
    (hP : cfg.isPrivate = true) (hT : isFalsy env.token = true) :
    check_for_changes cfg env = [SyncAction.reportTokenMissingCheck] := by
  simp [check_for_changes, hP, hT]

/-- C3 witness: the amended statement applied to the tokenless private
configuration. -/
theorem c3_witness :
    check_for_changes cfgPriv envNoTok = [SyncAction.reportTokenMissingCheck] :=
  c3_token_missing_aborts_tick cfgPriv envNoTok rfl rfl

/-- C4 counterexample: an HTTPS URL without `github.com` is passed to
clone unmodified even though a credential is supplied, refuting the claim
that every credentialed HTTPS URL gets the credential embedded. -/
theorem c4_counterexample :
    clone_url (pyStr "https://gitlab.com/u/r.git") (some (pyStr "T")) =
      pyStr "https://gitlab.com/u/r.git" ∧
    clone_url (pyStr "https://gitlab.com/u/r.git") (some (pyStr "T")) ≠
      pyStr "https://T@gitlab.com/u/r.git" := by
  refine ⟨?_, ?_⟩ <;> decide

/-- C4 (amended): credential embedding for clone additionally requires the
URL to contain `github.com`; with a credential and an HTTPS github.com URL
every occurrence of `https://` becomes `https://TOKEN@`, and in all other
cases (non-HTTPS, no `github.com`, or no credential) the URL is passed
through unmodified. -/
theorem c4_clone_rewrite :
    clone_url (pyStr "https://github.com/u/r.git") (some (pyStr "T")) =
      pyStr "https://T@github.com/u/r.git" ∧
    (∀ url t, pyStartsWith url (pyStr "https://") = false →
      clone_url url (some t) = url) ∧
    (∀ url t, pyContains url (pyStr "github.com") = false →
      clone_url url (some t) = url) ∧
    (∀ url, clone_url url none = url) := by
  refine ⟨by decide, ?_, ?_, ?_⟩
  · intro url t h
    simp [clone_url, h]
  · intro url t h
    simp [clone_url, h]
  · intro url
    simp [clone_url, isFalsy]

/-- C4 witness: the non-HTTPS branch of the amended statement applied to
an ssh-style URL with a credential present. -/
theorem c4_witness :
    clone_url (pyStr "git@github.com:u/r.git") (some (pyStr "T")) =
      pyStr "git@github.com:u/r.git" :=
  c4_clone_rewrite.2.1 (pyStr "git@github.com:u/r.git") (pyStr "T") (by decide)

/-- C6: whenever remote drift is detected in a tick, the merge
confirmation prompt is issued whatever the automation flags are, and a
declining answer means the merge operation is never invoked. -/
theorem c6_merge_prompt_unconditional (cfg : SchedConfig) (env : TickEnv)
    (hTok : (cfg.isPrivate && isFalsy env.token) = false)
    (hF : env.fetchOk = true)
    (hD : has_changes env.world env.branch = true) :
    SyncAction.promptMerge ∈ check_for_changes cfg env ∧
    (yesAnswer env.mergeAnswer = false →
      SyncAction.merge ∉ check_for_changes cfg env) := by
  constructor
  · simp [check_for_changes, hTok, hF, hD, handle_remote_changes]
  · intro hNo
    have hml := merge_not_mem_handle_local cfg env
    by_cases hl : has_local_changes env.world <;>
      simp [check_for_changes, hTok, hF, hD, handle_remote_changes, hNo, hl, hml]

/-- C6 witness: the drifted world with a declining answer issues the
prompt and never merges. -/
theorem c6_witness :
    SyncAction.promptMerge ∈ check_for_changes cfgAC envDriftDecline ∧
    SyncAction.merge ∉ check_for_changes cfgAC envDriftDecline := by
  have h := c6_merge_prompt_unconditional cfgAC envDriftDecline (by decide) rfl (by decide)
  exact ⟨h.1, h.2 (by decide)⟩

/-- C7: with auto-push disabled and a dirty working tree, a tick performs
none of stage-all, commit or push, whatever the confirm-push flag; the
local-changes handler only reports the detection. -/
theorem c7_no_autopush_never_publishes (cfg : SchedConfig) (env : TickEnv)
    (hA : cfg.autoPush = false) (hDirty : has_local_changes env.world = true) :
    handle_local_changes cfg env = [SyncAction.reportDetectionOnly] ∧
    SyncAction.stageAll ∉ check_for_changes cfg env ∧
    SyncAction.commit ∉ check_for_changes cfg env ∧
    SyncAction.push ∉ check_for_changes cfg env := by
  have hloc : handle_local_changes cfg env = [SyncAction.reportDetectionOnly] := by
    simp [handle_local_changes, hA]
  refine ⟨hloc, ?_, ?_, ?_⟩ <;>
    · intro hmem
      unfold check_for_changes at hmem
      rcases hp : (cfg.isPrivate && isFalsy env.token) <;> rw [hp] at hmem
      · rcases hf : env.fetchOk <;> rw [hf] at hmem
        · simp at hmem
        · rw [hDirty] at hmem
          rcases hr : has_changes env.world env.branch <;> rw [hr] at hmem <;>
            simp [hloc] at hmem <;>
            rcases mem_handle_remote env _ hmem with h | h | h <;> simp at h
      · simp at hmem

/-- C7 witness: the detection-only behavior on a dirty world with
auto-push off. -/
theorem c7_witness :
    handle_local_changes ⟨false, true, false⟩ envDecline =
      [SyncAction.reportDetectionOnly] ∧
    SyncAction.stageAll ∉ check_for_changes ⟨false, true, false⟩ envDecline :=
  ⟨(c7_no_autopush_never_publishes ⟨false, true, false⟩ envDecline rfl (by decide)).1,
   (c7_no_autopush_never_publishes ⟨false, true, false⟩ envDecline rfl (by decide)).2.1⟩

/-- C10: a fetch or push invoked with a token first reconfigures the
remote to `https://TOKEN@github.com/<path>` where `<path>` is
`_get_repo_path`; the path is empty when `remote get-url` fails or its
output lacks `github.com`, in which case the configured remote is the
malformed `https://TOKEN@github.com/`; on the dirty world the userinfo
and `.git` suffix of the stored URL are stripped. -/
theorem c10_token_reconfigures_remote (w : GitWorld) (t : PyStr) (ht : t ≠ []) :
    fetch_config_url w (some t) =
      some (pyStr "https://" ++ t ++ pyStr "@github.com/" ++ get_repo_path w) ∧
    push_config_url w (some t) =
      some (pyStr "https://" ++ t ++ pyStr "@github.com/" ++ get_repo_path w) ∧
    (w.remoteGetUrl.ok = false → get_repo_path w = []) ∧
    (pyContains (pyStrip w.remoteGetUrl.out) (pyStr "github.com") = false →
      get_repo_path w = []) ∧
    ((w.remoteGetUrl.ok = false ∨
        pyContains (pyStrip w.remoteGetUrl.out) (pyStr "github.com") = false) →
      fetch_config_url w (some t) =
        some (pyStr "https://" ++ t ++ pyStr "@github.com/")) ∧
    get_repo_path wDirty = pyStr "u/r" := by
  have hf : isFalsy (some t) = false := by
    cases t with
    | nil => exact absurd rfl ht
    | cons c cs => rfl
  have hempty : ∀ hw : GitWorld,
      (hw.remoteGetUrl.ok = false ∨
        pyContains (pyStrip hw.remoteGetUrl.out) (pyStr "github.com") = false) →
      get_repo_path hw = [] := by
    intro hw hor
    rcases hor with hor | hor
    · simp [get_repo_path, hor]
    · unfold get_repo_path
      rcases ho : hw.remoteGetUrl.ok
      · simp
      · simp [hor]
  refine ⟨?_, ?_, ?_, ?_, ?_, by decide⟩
  · simp [fetch_config_url, hf, token_remote_url]
  · simp [push_config_url, hf, token_remote_url]
  · intro h
    exact hempty w (Or.inl h)
  · intro h
    exact hempty w (Or.inr h)
  · intro h
    simp [fetch_config_url, hf, token_remote_url, hempty w h]

/-- C10 witness: the reconfiguration at the world whose `remote get-url`
fails, yielding the malformed credentialed URL. -/
theorem c10_witness :
    fetch_config_url wNoUrl (some (pyStr "T")) =
      some (pyStr "https://" ++ pyStr "T" ++ pyStr "@github.com/") :=
  (c10_token_reconfigures_remote wNoUrl (pyStr "T") (by decide)).2.2.2.2.1 (Or.inl rfl)
